import Mathlib

/-!
Verification of the per-guild hourly chime scheduler (src/cogs/voice.py).

The development shallowly embeds the scheduling core:
* the wall-clock next-hour-boundary computation used by both the recurring
  loop and the one-shot task,
* the hour-to-filename resolver,
* one iteration of the recurring chime loop as a pure function over a
  snapshot of the environment (guild lookup, voice-client state, file
  existence, backend success flags), producing an iteration result and a
  trace of observable playback events,
* the one-shot task body and its try/finally deregistration,
* the task registry operations (ensure recurring, cancel, schedule one-shot),
* the immediate test command.
-/

namespace Zihou

/-- A wall-clock instant, as Python `datetime` fields.  Months and years are
folded into a running day counter, which is faithful for durations. -/
structure DateTime where
  day : Nat
  hour : Nat
  minute : Nat
  second : Nat
  microsecond : Nat
deriving DecidableEq, Repr

/-- `now.replace(minute=0, second=0, microsecond=0)` from the source. -/
def DateTime.replaceTopOfHour (d : DateTime) : DateTime :=
  ⟨d.day, d.hour, 0, 0, 0⟩

/-- `+ timedelta(hours=1)`: one hour later, carrying into the day. -/
def DateTime.addOneHour (d : DateTime) : DateTime :=
  if d.hour + 1 < 24 then ⟨d.day, d.hour + 1, d.minute, d.second, d.microsecond⟩
  else ⟨d.day + 1, 0, d.minute, d.second, d.microsecond⟩

/-- `next_top = (now.replace(minute=0, second=0, microsecond=0) + timedelta(hours=1))`,
the computation at voice.py lines 59-61 and 120-122. -/
def nextTop (now : DateTime) : DateTime :=
  now.replaceTopOfHour.addOneHour

/-- Total microseconds since the epoch of the day counter; used to express
`(next_top - now).total_seconds()` exactly. -/
def DateTime.toMicros (d : DateTime) : Nat :=
  (((d.day * 24 + d.hour) * 60 + d.minute) * 60 + d.second) * 1000000 + d.microsecond

/-- Field validity of a `datetime` value. -/
def DateTime.Valid (d : DateTime) : Prop :=
  d.hour < 24 ∧ d.minute < 60 ∧ d.second < 60 ∧ d.microsecond < 1000000

/-- `_hour_to_filename`: the hour maps to the file named `"{hour}.wav"`. -/
def hour_to_filename (hour : Nat) : String :=
  toString hour ++ ".wav"

/-- Injectivity of the resolver on the hour domain, checked exhaustively. -/
lemma hour_to_filename_inj_lt24 :
    ∀ h1 < 24, ∀ h2 < 24, h1 ≠ h2 → hour_to_filename h1 ≠ hour_to_filename h2 := by
  decide

/-- The next boundary lands exactly on a top of hour. -/
lemma nextTop_toMicros (now : DateTime) (hh : now.hour < 24) :
    (nextTop now).toMicros = (now.day * 24 + now.hour) * 3600000000 + 3600000000 := by
  obtain ⟨d, h, m, s, u⟩ := now
  simp only [nextTop, DateTime.replaceTopOfHour, DateTime.addOneHour, DateTime.toMicros] at *
  by_cases hc : h + 1 < 24
  · simp only [hc, if_true]
    omega
  · simp only [hc, if_false]
    omega

/-- Claim C3: for every valid "now", the computed next hour boundary
(`next_top`, voice.py lines 59-61 and 120-122) has zero minutes, seconds and
sub-seconds and is strictly after now; off a boundary the wait
`next_top - now` lies in (0, 3600] seconds, and exactly on a boundary it is
exactly 3600 seconds, never 0. -/
theorem c3_next_boundary (now : DateTime) (hv : now.Valid) :
    (nextTop now).minute = 0 ∧ (nextTop now).second = 0 ∧
    (nextTop now).microsecond = 0 ∧
    now.toMicros < (nextTop now).toMicros ∧
    (¬(now.minute = 0 ∧ now.second = 0 ∧ now.microsecond = 0) →
      0 < (nextTop now).toMicros - now.toMicros ∧
      (nextTop now).toMicros - now.toMicros ≤ 3600000000) ∧
    ((now.minute = 0 ∧ now.second = 0 ∧ now.microsecond = 0) →
      (nextTop now).toMicros - now.toMicros = 3600000000) := by
  obtain ⟨hh, hm, hs, hu⟩ := hv
  have hkey := nextTop_toMicros now hh
  have hstruct : (nextTop now).minute = 0 ∧ (nextTop now).second = 0 ∧
      (nextTop now).microsecond = 0 := by
    obtain ⟨d, h, m, s, u⟩ := now
    simp only [nextTop, DateTime.replaceTopOfHour, DateTime.addOneHour]
    by_cases hc : h + 1 < 24 <;> simp [hc]
  refine ⟨hstruct.1, hstruct.2.1, hstruct.2.2, ?_, ?_, ?_⟩ <;>
    · rw [hkey]
      simp only [DateTime.toMicros]
      omega

/-- Witness for C3 at the concrete instant day 0, 05:30:00.000000. -/
theorem c3_next_boundary_witness :
    DateTime.Valid ⟨0, 5, 30, 0, 0⟩ ∧
    ((nextTop ⟨0, 5, 30, 0, 0⟩).minute = 0 ∧ (nextTop ⟨0, 5, 30, 0, 0⟩).second = 0 ∧
    (nextTop ⟨0, 5, 30, 0, 0⟩).microsecond = 0 ∧
    DateTime.toMicros ⟨0, 5, 30, 0, 0⟩ < (nextTop ⟨0, 5, 30, 0, 0⟩).toMicros ∧
    (¬((30 : Nat) = 0 ∧ (0 : Nat) = 0 ∧ (0 : Nat) = 0) →
      0 < (nextTop ⟨0, 5, 30, 0, 0⟩).toMicros - DateTime.toMicros ⟨0, 5, 30, 0, 0⟩ ∧
      (nextTop ⟨0, 5, 30, 0, 0⟩).toMicros - DateTime.toMicros ⟨0, 5, 30, 0, 0⟩ ≤ 3600000000) ∧
    (((30 : Nat) = 0 ∧ (0 : Nat) = 0 ∧ (0 : Nat) = 0) →
      (nextTop ⟨0, 5, 30, 0, 0⟩).toMicros - DateTime.toMicros ⟨0, 5, 30, 0, 0⟩ = 3600000000)) :=
  ⟨by constructor <;> norm_num [DateTime.Valid],
   c3_next_boundary ⟨0, 5, 30, 0, 0⟩ (by constructor <;> norm_num [DateTime.Valid])⟩

/-- Claim C9: for hours in [0,23], `_hour_to_filename` is deterministic (it
is a pure function of the hour), names the file `"{h}.wav"`, and distinct
hours yield distinct filenames. -/
theorem c9_resolve_hour (h1 h2 : Nat) (hb1 : h1 < 24) (hb2 : h2 < 24) :
    hour_to_filename h1 = toString h1 ++ ".wav" ∧
    hour_to_filename h1 = hour_to_filename h1 ∧
    (h1 ≠ h2 → hour_to_filename h1 ≠ hour_to_filename h2) :=
  ⟨rfl, rfl, hour_to_filename_inj_lt24 h1 hb1 h2 hb2⟩

/-- Witness for C9 at hours 7 and 13. -/
theorem c9_resolve_hour_witness :
    (7 : Nat) < 24 ∧ (13 : Nat) < 24 ∧
    (hour_to_filename 7 = toString (7 : Nat) ++ ".wav" ∧
     hour_to_filename 7 = hour_to_filename 7 ∧
     ((7 : Nat) ≠ 13 → hour_to_filename 7 ≠ hour_to_filename 13)) :=
  ⟨by decide, by decide, c9_resolve_hour 7 13 (by decide) (by decide)⟩

/-- Observable effects on the logger and the voice client. -/
inductive PlayEvent where
  | logMissing (file : String)
  | logFFmpegInitError
  | logPlayError
  | playRequest (file : String)
  | stopCall
deriving DecidableEq, Repr

/-- How one iteration of the recurring loop body ends. -/
inductive IterResult where
  | continued
  | played (file : String)
  | raised
deriving DecidableEq, Repr

/-- Snapshot of the environment observed by one iteration of
`_hourly_chime_loop` after its sleep ends. -/
structure LoopEnv where
  guildFound : Bool
  hasClient : Bool
  clientConnected : Bool
  playing : Bool
  paused : Bool
  hour : Nat
  fileExists : Bool
  ffmpegOk : Bool
  playOk : Bool
deriving DecidableEq, Repr

/-- One iteration of the body of `_hourly_chime_loop` (voice.py lines 57-101),
after the sleep to the boundary: look up the guild, check connection and
busy state, resolve the hour file, check existence, build the FFmpeg source,
and play.  `continued` means the loop goes back to waiting for the next
boundary; `raised` means an exception escaped the body (both the FFmpeg
construction handler and the play handler end in a bare `raise`), killing
the task. -/
def hourlyIter (env : LoopEnv) : IterResult × List PlayEvent :=
  if env.guildFound = false then (IterResult.continued, [])
  else if env.hasClient = false ∨ env.clientConnected = false then
    (IterResult.continued, [])
  else if env.playing = true ∨ env.paused = true then (IterResult.continued, [])
  else
    let filename := hour_to_filename env.hour
    if env.fileExists = false then
      (IterResult.continued, [PlayEvent.logMissing filename])
    else if env.ffmpegOk = false then
      (IterResult.raised, [PlayEvent.logFFmpegInitError])
    else if env.playOk = false then
      (IterResult.raised, [PlayEvent.playRequest filename, PlayEvent.logPlayError])
    else (IterResult.played filename, [PlayEvent.playRequest filename])

/-- Counterexample to C1: a cycle with a connected, idle session and an
existing hour file in which the FFmpeg source construction fails.  The
handler logs the error and then re-raises, so the error propagates out of
the task body and the recurring loop dies instead of continuing. -/
theorem c1_counterexample :
    (hourlyIter ⟨true, true, true, false, false, 14, true, false, true⟩).1 =
      IterResult.raised ∧
    (hourlyIter ⟨true, true, true, false, false, 14, true, true, false⟩).1 =
      IterResult.raised := by
  constructor <;> rfl

/-- Claim C1 as amended: a missing hour file is caught, logged, and the loop
continues to the next boundary; but a playback-backend construction failure
or a rejected play request is logged and then re-raised, and this is exactly
when an error propagates out of the recurring task body. -/
theorem c1_error_propagation (env : LoopEnv) :
    ((hourlyIter env).1 = IterResult.raised ↔
      (env.guildFound = true ∧ env.hasClient = true ∧ env.clientConnected = true ∧
       env.playing = false ∧ env.paused = false ∧ env.fileExists = true ∧
       (env.ffmpegOk = false ∨ env.playOk = false))) ∧
    (env.guildFound = true → env.hasClient = true → env.clientConnected = true →
     env.playing = false → env.paused = false → env.fileExists = false →
     hourlyIter env =
       (IterResult.continued, [PlayEvent.logMissing (hour_to_filename env.hour)])) := by
  obtain ⟨g, hc, cc, pl, pa, h, fe, fo, po⟩ := env
  refine ⟨?_, ?_⟩ <;>
    cases g <;> cases hc <;> cases cc <;> cases pl <;> cases pa <;>
      cases fe <;> cases fo <;> cases po <;> simp [hourlyIter]

/-- Witness for the amended C1 at a failing-FFmpeg cycle and at a
missing-file cycle. -/
theorem c1_error_propagation_witness :
    ((hourlyIter ⟨true, true, true, false, false, 9, true, false, true⟩).1 =
        IterResult.raised ↔
      (true = true ∧ true = true ∧ true = true ∧ false = false ∧ false = false ∧
       true = true ∧ ((false : Bool) = false ∨ (true : Bool) = false))) ∧
    (true = true → true = true → true = true → false = false → false = false →
     true = false →
     hourlyIter ⟨true, true, true, false, false, 9, true, false, true⟩ =
       (IterResult.continued, [PlayEvent.logMissing (hour_to_filename 9)])) :=
  c1_error_propagation ⟨true, true, true, false, false, 9, true, false, true⟩

/-- Counterexample to C2: on a fire with a connected, idle session where
everything succeeds, the loop issues exactly one play request, for the hour
file alone; no preamble resource named "時報.mp3" is ever requested, so the
played sequence is not the two-element sequence [preamble, hour file]. -/
theorem c2_counterexample :
    (hourlyIter ⟨true, true, true, false, false, 14, true, true, true⟩).2 =
      [PlayEvent.playRequest "14.wav"] ∧
    (hourlyIter ⟨true, true, true, false, false, 14, true, true, true⟩).2 ≠
      [PlayEvent.playRequest "時報.mp3",
       PlayEvent.playRequest (hour_to_filename 14)] := by
  constructor
  · rfl
  · decide

/-- Claim C2 as amended: on every fire with a connected, not-busy session in
which the hour file exists and the backend calls succeed, the played
sequence is exactly the one-element sequence [hour file "{h}.wav"]; there is
no preamble. -/
theorem c2_played_sequence (env : LoopEnv)
    (hg : env.guildFound = true) (hhc : env.hasClient = true)
    (hcc : env.clientConnected = true) (hpl : env.playing = false)
    (hpa : env.paused = false) (hfe : env.fileExists = true)
    (hfo : env.ffmpegOk = true) (hpo : env.playOk = true) :
    hourlyIter env =
      (IterResult.played (hour_to_filename env.hour),
       [PlayEvent.playRequest (hour_to_filename env.hour)]) := by
  simp [hourlyIter, hg, hhc, hcc, hpl, hpa, hfe, hfo, hpo]

/-- Witness for the amended C2 at hour 14 with an all-good environment. -/
theorem c2_played_sequence_witness :
    hourlyIter ⟨true, true, true, false, false, 14, true, true, true⟩ =
      (IterResult.played (hour_to_filename 14),
       [PlayEvent.playRequest (hour_to_filename 14)]) :=
  c2_played_sequence ⟨true, true, true, false, false, 14, true, true, true⟩
    rfl rfl rfl rfl rfl rfl rfl rfl

/-- Claim C4: if the session reports playing or paused at the fire instant,
the recurring loop issues no play request at all, produces no observable
event, and the iteration ends with `continued`, i.e. the task stays alive
and goes back to sleeping until the next boundary. -/
theorem c4_busy_skips_cycle (env : LoopEnv)
    (hbusy : env.playing = true ∨ env.paused = true) :
    hourlyIter env = (IterResult.continued, []) := by
  obtain ⟨g, hc, cc, pl, pa, h, fe, fo, po⟩ := env
  cases g <;> cases hc <;> cases cc <;> cases pl <;> cases pa <;>
    simp_all [hourlyIter]

/-- Witness for C4: a busy (playing) session at hour 14. -/
theorem c4_busy_skips_cycle_witness :
    ((true : Bool) = true ∨ (false : Bool) = true) ∧
    hourlyIter ⟨true, true, true, true, false, 14, true, true, true⟩ =
      (IterResult.continued, []) :=
  ⟨Or.inl rfl,
   c4_busy_skips_cycle ⟨true, true, true, true, false, 14, true, true, true⟩
     (Or.inl rfl)⟩

/-- Status of an asyncio task: running, finished (normally or with a stored
exception), or cancelled. -/
inductive TaskStatus where
  | running
  | finished
  | cancelled
deriving DecidableEq, Repr

/-- The cog's task bookkeeping: a fresh-id counter, the status of every task
ever created, and the two per-guild dictionaries `_hourly_tasks` and
`_oneshot_tasks` (shallowly, maps from guild id to the registered task id). -/
structure TaskSystem where
  nextId : Nat
  status : Nat → TaskStatus
  hourly : Nat → Option Nat
  oneshot : Nat → Option Nat

/-- `task.cancel()`: a running task becomes cancelled; a completed task is
unaffected. -/
def cancelTask (tid : Nat) (st : TaskSystem) : TaskSystem :=
  if st.status tid = TaskStatus.running then
    { st with status := fun t => if t = tid then TaskStatus.cancelled else st.status t }
  else st

/-- `_ensure_hourly_task`: create a fresh running task for the guild only if
none is registered or the registered one is done or cancelled; otherwise a
no-op. -/
def ensureHourlyTask (g : Nat) (st : TaskSystem) : TaskSystem :=
  match st.hourly g with
  | some tid =>
      if st.status tid = TaskStatus.running then st
      else
        { st with
          nextId := st.nextId + 1,
          hourly := fun x => if x = g then some st.nextId else st.hourly x,
          status := fun t => if t = st.nextId then TaskStatus.running else st.status t }
  | none =>
      { st with
        nextId := st.nextId + 1,
        hourly := fun x => if x = g then some st.nextId else st.hourly x,
        status := fun t => if t = st.nextId then TaskStatus.running else st.status t }

/-- `_cancel_hourly_task`: pop the guild's recurring task and cancel it if
it was present. -/
def cancelHourlyTask (g : Nat) (st : TaskSystem) : TaskSystem :=
  match st.hourly g with
  | some tid =>
      cancelTask tid { st with hourly := fun x => if x = g then none else st.hourly x }
  | none => st

/-- `_schedule_oneshot`: pop and cancel any previously registered one-shot
for the guild, then create and register a fresh running one. -/
def scheduleOneshot (g : Nat) (st : TaskSystem) : TaskSystem :=
  let st1 :=
    match st.oneshot g with
    | some prev =>
        cancelTask prev
          { st with oneshot := fun x => if x = g then none else st.oneshot x }
    | none => st
  { st1 with
    nextId := st1.nextId + 1,
    oneshot := fun x => if x = g then some st1.nextId else st1.oneshot x,
    status := fun t => if t = st1.nextId then TaskStatus.running else st1.status t }

lemma cancelTask_nextId (tid : Nat) (st : TaskSystem) :
    (cancelTask tid st).nextId = st.nextId := by
  unfold cancelTask; split <;> rfl

lemma cancelTask_oneshot (tid : Nat) (st : TaskSystem) :
    (cancelTask tid st).oneshot = st.oneshot := by
  unfold cancelTask; split <;> rfl

lemma cancelTask_status_self (tid : Nat) (st : TaskSystem)
    (h : st.status tid = TaskStatus.running) :
    (cancelTask tid st).status tid = TaskStatus.cancelled := by
  unfold cancelTask
  rw [if_pos h]
  simp

lemma scheduleOneshot_oneshot_self (g : Nat) (st : TaskSystem) :
    (scheduleOneshot g st).oneshot g = some st.nextId := by
  unfold scheduleOneshot
  cases h : st.oneshot g <;> simp [h, cancelTask_nextId, cancelTask_oneshot]

lemma scheduleOneshot_nextId (g : Nat) (st : TaskSystem) :
    (scheduleOneshot g st).nextId = st.nextId + 1 := by
  unfold scheduleOneshot
  cases h : st.oneshot g <;> simp [h, cancelTask_nextId]

lemma scheduleOneshot_status_new (g : Nat) (st : TaskSystem) :
    (scheduleOneshot g st).status st.nextId = TaskStatus.running := by
  unfold scheduleOneshot
  cases h : st.oneshot g <;> simp [h, cancelTask_nextId]

lemma scheduleOneshot_status_old (g : Nat) (st : TaskSystem) (tid : Nat)
    (hreg : st.oneshot g = some tid) (hrun : st.status tid = TaskStatus.running)
    (hne : tid ≠ st.nextId) :
    (scheduleOneshot g st).status tid = TaskStatus.cancelled := by
  unfold scheduleOneshot
  rw [hreg]
  simp only [cancelTask_nextId]
  rw [if_neg hne]
  exact cancelTask_status_self tid _ hrun

/-- Claim C5: the registry keeps at most one live task of each kind per
guild.  `_ensure_hourly_task` is a no-op while the registered recurring task
is still running, and `_schedule_oneshot` cancels the previously registered
one-shot before registering the new one, so two successive calls leave
exactly one live one-shot: the second task is registered and running and the
first is cancelled. -/
theorem c5_registry_invariant (st : TaskSystem) (g tid : Nat)
    (hfound : st.hourly g = some tid) (hrun : st.status tid = TaskStatus.running) :
    ensureHourlyTask g st = st ∧
    (scheduleOneshot g st).oneshot g = some st.nextId ∧
    (scheduleOneshot g (scheduleOneshot g st)).oneshot g = some (st.nextId + 1) ∧
    (scheduleOneshot g (scheduleOneshot g st)).status (st.nextId + 1) =
      TaskStatus.running ∧
    (scheduleOneshot g (scheduleOneshot g st)).status st.nextId =
      TaskStatus.cancelled := by
  refine ⟨?_, scheduleOneshot_oneshot_self g st, ?_, ?_, ?_⟩
  · unfold ensureHourlyTask
    rw [hfound]
    simp [hrun]
  · rw [scheduleOneshot_oneshot_self, scheduleOneshot_nextId]
  · have := scheduleOneshot_status_new g (scheduleOneshot g st)
    rwa [scheduleOneshot_nextId] at this
  · refine scheduleOneshot_status_old g (scheduleOneshot g st) st.nextId
      (scheduleOneshot_oneshot_self g st) (scheduleOneshot_status_new g st) ?_
    rw [scheduleOneshot_nextId]
    omega

/-- A concrete registry state: task 0 is live and registered as guild 1's
recurring task; no one-shot is registered. -/
def stW : TaskSystem :=
  ⟨3, fun _ => TaskStatus.running, fun _ => some 0, fun _ => none⟩

/-- Witness for C5 on the concrete state `stW` at guild 1. -/
theorem c5_registry_invariant_witness :
    stW.hourly 1 = some 0 ∧ stW.status 0 = TaskStatus.running ∧
    (ensureHourlyTask 1 stW = stW ∧
     (scheduleOneshot 1 stW).oneshot 1 = some stW.nextId ∧
     (scheduleOneshot 1 (scheduleOneshot 1 stW)).oneshot 1 = some (stW.nextId + 1) ∧
     (scheduleOneshot 1 (scheduleOneshot 1 stW)).status (stW.nextId + 1) =
       TaskStatus.running ∧
     (scheduleOneshot 1 (scheduleOneshot 1 stW)).status stW.nextId =
       TaskStatus.cancelled) :=
  ⟨rfl, rfl, c5_registry_invariant stW 1 0 rfl rfl⟩

/-- Structured outcome message a one-shot run can send to its notification
channel. -/
inductive Report where
  | skippedNotConnected
  | skippedMissingResource
  | ffmpegInitFailed
  | playFailed
  | played (hour : Nat)
deriving DecidableEq, Repr

/-- Snapshot of the environment observed by one run of
`_wait_and_play_once`. -/
structure OneshotEnv where
  cancelledDuringSleep : Bool
  guildFound : Bool
  hasClient : Bool
  clientConnected : Bool
  playing : Bool
  paused : Bool
  hour : Nat
  fileExists : Bool
  ffmpegOk : Bool
  playOk : Bool
  notifyChannel : Bool
  channelIsText : Bool
  sendOk : Bool
deriving DecidableEq, Repr

/-- A notification message is actually delivered only when a notify channel
id was supplied, it resolves to a text channel or thread, and the send call
itself does not raise (a raising send is swallowed by the inner handler). -/
def delivered (env : OneshotEnv) : Bool :=
  env.notifyChannel && env.channelIsText && env.sendOk

/-- The try-block body of `_wait_and_play_once` (voice.py lines 119-192):
sleep to the boundary (a cancellation there ends the body with no reports),
then look up the guild, check connection and busy state, resolve and check
the hour file, build the FFmpeg source, play, and wait for completion,
sending the corresponding notification on each path that has one.  The
result is the list of delivered notification messages. -/
def oneshotBody (env : OneshotEnv) : List Report :=
  if env.cancelledDuringSleep = true then []
  else if env.guildFound = false then []
  else if env.hasClient = false ∨ env.clientConnected = false then
    if delivered env = true then [Report.skippedNotConnected] else []
  else if env.playing = true ∨ env.paused = true then []
  else if env.fileExists = false then
    if delivered env = true then [Report.skippedMissingResource] else []
  else if env.ffmpegOk = false then
    if delivered env = true then [Report.ffmpegInitFailed] else []
  else if env.playOk = false then
    if delivered env = true then [Report.playFailed] else []
  else if delivered env = true then [Report.played env.hour]
  else []

/-- `_wait_and_play_once` for guild `g` on registry state `st`: the body
runs inside `try ... finally self._oneshot_tasks.pop(guild_id, None)`, so on
every exit path — normal return, skip, cancellation — the guild's one-shot
registry entry is removed. -/
def waitAndPlayOnce (env : OneshotEnv) (g : Nat) (st : TaskSystem) :
    TaskSystem × List Report :=
  ({ st with oneshot := fun x => if x = g then none else st.oneshot x },
   oneshotBody env)

/-- Counterexample to C7: two completed, non-cancelled runs with a usable
notification target supplied — one where the guild lookup fails, one where
the session is busy — deliver no outcome at all, not exactly one of the
four. -/
theorem c7_counterexample :
    (oneshotBody
        ⟨false, false, true, true, false, false, 14, true, true, true,
         true, true, true⟩ = [] ∧
      (oneshotBody
          ⟨false, false, true, true, false, false, 14, true, true, true,
           true, true, true⟩).length ≠ 1) ∧
    (oneshotBody
        ⟨false, true, true, true, true, false, 14, true, true, true,
         true, true, true⟩ = [] ∧
      (oneshotBody
          ⟨false, true, true, true, true, false, 14, true, true, true,
           true, true, true⟩).length ≠ 1) := by
  refine ⟨⟨rfl, ?_⟩, ⟨rfl, ?_⟩⟩ <;> decide

/-- Claim C7 as amended: a completed non-cancelled run delivers at most one
outcome; the guild-missing and session-busy exit paths deliver none, as do
runs whose notification channel is absent, not a text channel, or whose
send fails.  On every other completed run with a deliverable notification
target exactly one of skipped-not-connected, skipped-missing-resource,
skipped-playback-error (FFmpeg construction or play failure) or
played(hour) is delivered. -/
theorem c7_oneshot_reports (env : OneshotEnv) :
    (oneshotBody env).length ≤ 1 ∧
    (env.cancelledDuringSleep = false → env.guildFound = true →
     env.playing = false → env.paused = false → delivered env = true →
     (env.hasClient = false ∨ env.clientConnected = false →
       oneshotBody env = [Report.skippedNotConnected]) ∧
     (env.hasClient = true → env.clientConnected = true →
       (oneshotBody env).length = 1)) := by
  obtain ⟨ca, g, hc, cc, pl, pa, h, fe, fo, po, nc, ct, so⟩ := env
  constructor
  · cases ca <;> cases g <;> cases hc <;> cases cc <;> cases pl <;> cases pa <;>
      cases fe <;> cases fo <;> cases po <;>
      simp [oneshotBody, delivered] <;> split <;> simp
  · intro h1 h2 h3 h4 h5
    simp only at h1 h2 h3 h4
    subst h1; subst h2; subst h3; subst h4
    constructor
    · intro hdisc
      simp only [delivered] at h5
      cases hc <;> cases cc <;> simp_all [oneshotBody, delivered]
    · intro h6 h7
      simp only at h6 h7
      subst h6; subst h7
      cases fe <;> cases fo <;> cases po <;> simp_all [oneshotBody, delivered]

/-- Witness for the amended C7: a fully successful run at hour 14 with a
deliverable notification target. -/
theorem c7_oneshot_reports_witness :
    (oneshotBody
        ⟨false, true, true, true, false, false, 14, true, true, true,
         true, true, true⟩).length ≤ 1 ∧
    ((false : Bool) = false → (true : Bool) = true →
     (false : Bool) = false → (false : Bool) = false →
     delivered
        ⟨false, true, true, true, false, false, 14, true, true, true,
         true, true, true⟩ = true →
     (((true : Bool) = false ∨ (true : Bool) = false) →
       oneshotBody
          ⟨false, true, true, true, false, false, 14, true, true, true,
           true, true, true⟩ = [Report.skippedNotConnected]) ∧
     ((true : Bool) = true → (true : Bool) = true →
       (oneshotBody
          ⟨false, true, true, true, false, false, 14, true, true, true,
           true, true, true⟩).length = 1)) :=
  c7_oneshot_reports
    ⟨false, true, true, true, false, false, 14, true, true, true, true, true, true⟩

/-- Claim C8: on every exit path of `_wait_and_play_once` — every
environment snapshot, including cancellation during the sleep and every
skip — the `finally` block removes the guild's own one-shot registry entry,
and the entries of other guilds are untouched. -/
theorem c8_oneshot_self_deregisters (env : OneshotEnv) (g : Nat)
    (st : TaskSystem) :
    ((waitAndPlayOnce env g st).1).oneshot g = none ∧
    (∀ x, x ≠ g → ((waitAndPlayOnce env g st).1).oneshot x = st.oneshot x) := by
  constructor
  · simp [waitAndPlayOnce]
  · intro x hx
    simp [waitAndPlayOnce, hx]

/-- A registry state in which guild 2 has a pending one-shot task 5 and
guild 3 has a pending one-shot task 9. -/
def stC8 : TaskSystem :=
  ⟨10, fun _ => TaskStatus.running, fun _ => none,
   fun x => if x = 2 then some 5 else if x = 3 then some 9 else none⟩

/-- Witness for C8: a run cancelled during its sleep still pops guild 2's
entry and leaves guild 3's entry alone. -/
theorem c8_oneshot_self_deregisters_witness :
    ((waitAndPlayOnce
        ⟨true, true, true, true, false, false, 14, true, true, true,
         true, true, true⟩ 2 stC8).1).oneshot 2 = none ∧
    ((waitAndPlayOnce
        ⟨true, true, true, true, false, false, 14, true, true, true,
         true, true, true⟩ 2 stC8).1).oneshot 3 = stC8.oneshot 3 :=
  ⟨(c8_oneshot_self_deregisters
      ⟨true, true, true, true, false, false, 14, true, true, true,
       true, true, true⟩ 2 stC8).1,
   (c8_oneshot_self_deregisters
      ⟨true, true, true, true, false, false, 14, true, true, true,
       true, true, true⟩ 2 stC8).2 3 (by decide)⟩

/-- Snapshot of the environment observed by one invocation of the `test`
command. -/
structure TestEnv where
  isMember : Bool
  hasClient : Bool
  clientConnected : Bool
  authorInVoice : Bool
  connectOk : Bool
  postConnectHasClient : Bool
  postConnectConnected : Bool
  nextHour : Nat
  fileExists : Bool
  playing : Bool
  paused : Bool
  stopOk : Bool
  ffmpegOk : Bool
  playOk : Bool
deriving DecidableEq, Repr

/-- The `test` command (voice.py lines 264-318): check the invoker is a
member, ensure a voice connection (connecting to the author's channel if
needed), compute the next hour and its file, check existence, then inside
one try block stop any current playback, build the FFmpeg source and play
it.  The command reads neither `_hourly_tasks` nor `_oneshot_tasks`, so the
registry state passes through unchanged on every path; the event list
records the calls made on the voice client and logger. -/
def testCommand (env : TestEnv) (st : TaskSystem) : TaskSystem × List PlayEvent :=
  if env.isMember = false then (st, [])
  else
    let needConnect := env.hasClient = false ∨ env.clientConnected = false
    if needConnect ∧ env.authorInVoice = false then (st, [])
    else if needConnect ∧ env.authorInVoice = true ∧ env.connectOk = false then
      (st, [])
    else
      let connectedNow :=
        if needConnect then
          env.postConnectHasClient = true ∧ env.postConnectConnected = true
        else True
      if ¬connectedNow then (st, [])
      else
        let filename := hour_to_filename env.nextHour
        if env.fileExists = false then (st, [])
        else
          let pre :=
            if env.playing = true ∨ env.paused = true then [PlayEvent.stopCall]
            else []
          if (env.playing = true ∨ env.paused = true) ∧ env.stopOk = false then
            (st, pre ++ [PlayEvent.logPlayError])
          else if env.ffmpegOk = false then (st, pre ++ [PlayEvent.logPlayError])
          else if env.playOk = false then
            (st, pre ++ [PlayEvent.playRequest filename, PlayEvent.logPlayError])
          else (st, pre ++ [PlayEvent.playRequest filename])

/-- An environment for `test`: a member invoker, an already-connected idle
session, hour file 14 present, all backend calls succeeding. -/
def testEnvGood : TestEnv :=
  ⟨true, true, true, true, true, true, true, 14, true, false, false, true, true, true⟩

/-- A registry state in which guild 1 has a pending, running one-shot
task 7. -/
def stPendingOneshot : TaskSystem :=
  ⟨8, fun _ => TaskStatus.running, fun _ => none,
   fun x => if x = 1 then some 7 else none⟩

/-- Counterexample to C6: the `test` command runs to completion (it issues
the play request for the hour file), yet the previously pending one-shot of
the tenant is still registered and still running afterwards — it is not
cancelled, because `test` never touches the one-shot registry. -/
theorem c6_counterexample :
    (testCommand testEnvGood stPendingOneshot).2 =
      [PlayEvent.playRequest (hour_to_filename 14)] ∧
    ((testCommand testEnvGood stPendingOneshot).1).oneshot 1 = some 7 ∧
    ((testCommand testEnvGood stPendingOneshot).1).status 7 = TaskStatus.running := by
  refine ⟨rfl, rfl, rfl⟩

/-- Claim C6 as amended: the immediate `test` command leaves the task
registry — in particular every pending one-shot — completely unchanged on
every path; only `_schedule_oneshot` replaces a pending one-shot. -/
theorem c6_test_leaves_oneshots (env : TestEnv) (st : TaskSystem) :
    (testCommand env st).1 = st := by
  unfold testCommand
  dsimp only
  repeat' split <;> try rfl

/-- Claim C10: whenever the `test` command reaches playback with a connected
session that is currently playing or paused, it calls stop() on the session
first — the stop call heads the event trace — and only then issues the new
play request (which appears in the trace whenever the stop and the FFmpeg
construction succeed): the immediate variant preempts in-progress playback
instead of skipping. -/
theorem c10_test_preempts_busy (env : TestEnv) (st : TaskSystem)
    (hm : env.isMember = true) (hc : env.hasClient = true)
    (hcc : env.clientConnected = true) (hfe : env.fileExists = true)
    (hbusy : env.playing = true ∨ env.paused = true) :
    ∃ rest, (testCommand env st).2 = PlayEvent.stopCall :: rest ∧
      (env.stopOk = true → env.ffmpegOk = true →
        PlayEvent.playRequest (hour_to_filename env.nextHour) ∈
          (testCommand env st).2) := by
  obtain ⟨m, hcl, cc, av, co, ph, pc, nh, fe, pl, pa, so, fo, po⟩ := env
  simp only at hm hc hcc hfe
  subst hm; subst hc; subst hcc; subst hfe
  rcases hbusy with hb | hb <;> simp only at hb <;> subst hb <;>
    cases so <;> cases fo <;> cases po <;>
    simp [testCommand, hour_to_filename]

/-- Witness for C10: an already-connected session, currently playing, with
everything else succeeding; the trace starts with the stop call and contains
the play request for the next hour file. -/
theorem c10_test_preempts_busy_witness :
    ((true : Bool) = true ∧ (true : Bool) = true ∧ (true : Bool) = true ∧
     (true : Bool) = true ∧ ((true : Bool) = true ∨ (false : Bool) = true)) ∧
    (∃ rest,
      (testCommand
          ⟨true, true, true, true, true, true, true, 14, true, true, false,
           true, true, true⟩ stW).2 = PlayEvent.stopCall :: rest ∧
      ((true : Bool) = true → (true : Bool) = true →
        PlayEvent.playRequest (hour_to_filename 14) ∈
          (testCommand
              ⟨true, true, true, true, true, true, true, 14, true, true, false,
               true, true, true⟩ stW).2)) :=
  ⟨⟨rfl, rfl, rfl, rfl, Or.inl rfl⟩,
   c10_test_preempts_busy
     ⟨true, true, true, true, true, true, true, 14, true, true, false,
      true, true, true⟩ stW rfl rfl rfl rfl (Or.inl rfl)⟩

end Zihou
